import Mathlib

/-!
Verification of the candlestick pattern classification engine
(`src/utils.py` and `src/candlestick_patterns.py`).

Prices are modelled as rational numbers; a DataFrame row becomes an
`OHLCRow`, and the classified output (the input frame with the nine
boolean pattern columns added) becomes a list of `LabeledRow`.
`analyze_patterns` returns `Sum.inl` of the untouched input when it
refuses classification (empty input or failed OHLC validation), and
`Sum.inr` of the labeled rows otherwise, mirroring the Python function
that either returns the original DataFrame or a copy with columns added.
-/

namespace Candle

/-- Embeds `calculate_body_size` from `src/utils.py`. -/
def calculate_body_size (open_price close_price : ℚ) : ℚ :=
  |close_price - open_price|

/-- Embeds `calculate_shadow_size` from `src/utils.py`:
returns `(upper_shadow, lower_shadow)`. -/
def calculate_shadow_size (high low open_price close_price : ℚ) : ℚ × ℚ :=
  let body_high := max open_price close_price
  let body_low := min open_price close_price
  (high - body_high, body_low - low)

/-- Embeds `is_bullish` from `src/utils.py`. -/
def is_bullish (open_price close_price : ℚ) : Bool :=
  decide (close_price > open_price)

/-- Embeds `is_bearish` from `src/utils.py`. -/
def is_bearish (open_price close_price : ℚ) : Bool :=
  decide (close_price < open_price)

/-- Embeds `calculate_body_percentage` from `src/utils.py`. -/
def calculate_body_percentage (open_price close_price high low : ℚ) : ℚ :=
  let body_size := calculate_body_size open_price close_price
  let total_range := high - low
  if total_range = 0 then 0
  else (body_size / total_range) * 100

/-- Embeds `calculate_shadow_percentages` from `src/utils.py`:
returns `(upper_shadow_pct, lower_shadow_pct)`. -/
def calculate_shadow_percentages (high low open_price close_price : ℚ) : ℚ × ℚ :=
  let shadows := calculate_shadow_size high low open_price close_price
  let total_range := high - low
  if total_range = 0 then (0, 0)
  else ((shadows.1 / total_range) * 100, (shadows.2 / total_range) * 100)

/-- Embeds `is_doji` from `src/utils.py`. Note the source computes
`total_range = max(open_price, close_price) - min(open_price, close_price)`,
which is the body itself, not `high - low`. -/
def is_doji (open_price close_price : ℚ) (tolerance : ℚ := 1/10) : Bool :=
  let body_size := calculate_body_size open_price close_price
  let total_range := max open_price close_price - min open_price close_price
  if total_range = 0 then true
  else decide ((body_size / total_range) * 100 ≤ tolerance)

/-- Modelled from the spec (section 4.1), for comparison with the
implementation: `isDoji = range == 0 OR bodyPct ≤ doji_tolerance_pct`
with `range = high − low` and `bodyPct = 100 × |close − open| / range`. -/
def isDoji_spec (open_price close_price high low : ℚ) (tolerance : ℚ := 1/10) : Bool :=
  if high - low = 0 then true
  else decide (100 * |close_price - open_price| / (high - low) ≤ tolerance)

/-- Embeds `is_hammer` from `src/utils.py`. -/
def is_hammer (open_price close_price high low : ℚ)
    (body_threshold : ℚ := 30) (shadow_threshold : ℚ := 60) : Bool :=
  let body_pct := calculate_body_percentage open_price close_price high low
  let lower_shadow_pct := (calculate_shadow_percentages high low open_price close_price).2
  decide (body_pct ≤ body_threshold) && decide (lower_shadow_pct ≥ shadow_threshold)

/-- Embeds `is_shooting_star` from `src/utils.py`. -/
def is_shooting_star (open_price close_price high low : ℚ)
    (body_threshold : ℚ := 30) (shadow_threshold : ℚ := 60) : Bool :=
  let body_pct := calculate_body_percentage open_price close_price high low
  let upper_shadow_pct := (calculate_shadow_percentages high low open_price close_price).1
  decide (body_pct ≤ body_threshold) && decide (upper_shadow_pct ≥ shadow_threshold)

/-- One row of the OHLC input DataFrame (columns `Date, Open, High, Low, Close`).
Dates are modelled as integers (only their identity and order matter). -/
structure OHLCRow where
  Date : ℤ
  Open : ℚ
  High : ℚ
  Low : ℚ
  Close : ℚ
  deriving DecidableEq, Inhabited

/-- Embeds the per-row consistency check of `validate_ohlc_data` from
`src/utils.py`: `Low <= Open <= High and Low <= Close <= High`.
(The required-columns check always passes in this typed model.) -/
def rowValid (r : OHLCRow) : Bool :=
  decide (r.Low ≤ r.Open ∧ r.Open ≤ r.High ∧ r.Low ≤ r.Close ∧ r.Close ≤ r.High)

/-- Embeds `validate_ohlc_data` from `src/utils.py`. -/
def validate_ohlc_data (data : List OHLCRow) : Bool :=
  data.all rowValid

/-- One row of the classified output DataFrame: the original row plus the
nine boolean pattern columns added by the analyzer. -/
structure LabeledRow where
  row : OHLCRow
  is_doji : Bool
  is_hammer : Bool
  is_shooting_star : Bool
  is_bullish : Bool
  is_bearish : Bool
  is_bullish_engulfing : Bool
  is_bearish_engulfing : Bool
  is_morning_star : Bool
  is_evening_star : Bool
  deriving DecidableEq, Inhabited

/-- Embeds `CandlestickPatternAnalyzer._is_bullish_engulfing` from
`src/candlestick_patterns.py`. -/
def _is_bullish_engulfing (prev_candle curr_candle : OHLCRow) : Bool :=
  if !is_bearish prev_candle.Open prev_candle.Close then false
  else if !is_bullish curr_candle.Open curr_candle.Close then false
  else decide (curr_candle.Open < prev_candle.Close) &&
       decide (curr_candle.Close > prev_candle.Open)

/-- Embeds `CandlestickPatternAnalyzer._is_bearish_engulfing` from
`src/candlestick_patterns.py`. -/
def _is_bearish_engulfing (prev_candle curr_candle : OHLCRow) : Bool :=
  if !is_bullish prev_candle.Open prev_candle.Close then false
  else if !is_bearish curr_candle.Open curr_candle.Close then false
  else decide (curr_candle.Open > prev_candle.Close) &&
       decide (curr_candle.Close < prev_candle.Open)

/-- Embeds `CandlestickPatternAnalyzer._is_morning_star` from
`src/candlestick_patterns.py`. -/
def _is_morning_star (first_candle second_candle third_candle : OHLCRow) : Bool :=
  if !is_bearish first_candle.Open first_candle.Close then false
  else if !is_doji second_candle.Open second_candle.Close then false
  else if !is_bullish third_candle.Open third_candle.Close then false
  else decide (second_candle.Open < first_candle.Close) &&
       decide (third_candle.Open > second_candle.Close)

/-- Embeds `CandlestickPatternAnalyzer._is_evening_star` from
`src/candlestick_patterns.py`. -/
def _is_evening_star (first_candle second_candle third_candle : OHLCRow) : Bool :=
  if !is_bullish first_candle.Open first_candle.Close then false
  else if !is_doji second_candle.Open second_candle.Close then false
  else if !is_bearish third_candle.Open third_candle.Close then false
  else decide (second_candle.Open > first_candle.Close) &&
       decide (third_candle.Open < second_candle.Close)

/-- The per-row effect of `_analyze_single_candle_patterns`: the single-candle
columns are filled from the predicates, the multi-candle columns are still at
their initialized value `False`. -/
def singleLabel (r : OHLCRow) : LabeledRow :=
  { row := r
    is_doji := is_doji r.Open r.Close
    is_hammer := is_hammer r.Open r.Close r.High r.Low
    is_shooting_star := is_shooting_star r.Open r.Close r.High r.Low
    is_bullish := is_bullish r.Open r.Close
    is_bearish := is_bearish r.Open r.Close
    is_bullish_engulfing := false
    is_bearish_engulfing := false
    is_morning_star := false
    is_evening_star := false }

/-- Embeds `CandlestickPatternAnalyzer._analyze_single_candle_patterns` from
`src/candlestick_patterns.py`: a row-wise pass filling the five single-candle
columns. -/
def _analyze_single_candle_patterns (data : List OHLCRow) : List LabeledRow :=
  data.map singleLabel

/-- The column initialization at the top of `_analyze_multi_candle_patterns`:
the four multi-candle columns are (re)set to `False`. -/
def resetMulti (r : LabeledRow) : LabeledRow :=
  { r with
    is_bullish_engulfing := false
    is_bearish_engulfing := false
    is_morning_star := false
    is_evening_star := false }

/-- The value of row `i` after the two index loops of
`_analyze_multi_candle_patterns`: the engulfing columns are set from the
pair matchers on rows `i-1, i` (loop `for i in range(1, len(data))`), the
star columns from the triple matchers on rows `i-2, i-1, i`
(loop `for i in range(2, len(data))`); all other columns are untouched. -/
def multiAt (l : List LabeledRow) (i : ℕ) : LabeledRow :=
  match l[i]? with
  | none => default
  | some r =>
    { r with
      is_bullish_engulfing :=
        decide (1 ≤ i) && (match l[i - 1]? with
          | some p => _is_bullish_engulfing p.row r.row
          | none => false)
      is_bearish_engulfing :=
        decide (1 ≤ i) && (match l[i - 1]? with
          | some p => _is_bearish_engulfing p.row r.row
          | none => false)
      is_morning_star :=
        decide (2 ≤ i) && (match l[i - 2]?, l[i - 1]? with
          | some a, some b => _is_morning_star a.row b.row r.row
          | _, _ => false)
      is_evening_star :=
        decide (2 ≤ i) && (match l[i - 2]?, l[i - 1]? with
          | some a, some b => _is_evening_star a.row b.row r.row
          | _, _ => false) }

/-- Embeds `CandlestickPatternAnalyzer._analyze_multi_candle_patterns` from
`src/candlestick_patterns.py`. The source initializes the four columns to
`False`, then returns early when `len(data) < 2` and again when
`len(data) < 3` — the second early return sits BEFORE the engulfing loop, so
a 2-row frame keeps all multi-candle columns `False`. The matchers read only
the `Open/Close` cells, which the loops never write, so the loop bodies are
order-independent and are modelled positionally. -/
def _analyze_multi_candle_patterns (l : List LabeledRow) : List LabeledRow :=
  let ini := l.map resetMulti
  if ini.length < 2 then ini
  else if ini.length < 3 then ini
  else (List.range ini.length).map (multiAt ini)

/-- Embeds `CandlestickPatternAnalyzer.analyze_patterns` from
`src/candlestick_patterns.py`. `Sum.inl` is the refusal path (the original
input is handed back untouched, no pattern columns added); `Sum.inr` is the
classified copy. -/
def analyze_patterns (data : List OHLCRow) : List OHLCRow ⊕ List LabeledRow :=
  if data.isEmpty then Sum.inl data
  else if !validate_ohlc_data data then Sum.inl data
  else Sum.inr (_analyze_multi_candle_patterns (_analyze_single_candle_patterns data))

/-- The classified rows of an analysis result, empty on the refusal path
(convenience accessor for stating concrete evaluations). -/
def classifiedRows (data : List OHLCRow) : List LabeledRow :=
  match analyze_patterns data with
  | Sum.inl _ => []
  | Sum.inr l => l

/-- The rows carried by an analysis result: the untouched input on the
refusal path, the `Date/Open/High/Low/Close` cells of the output otherwise. -/
def outputRows (out : List OHLCRow ⊕ List LabeledRow) : List OHLCRow :=
  match out with
  | Sum.inl d => d
  | Sum.inr l => l.map (fun r => r.row)

/-- The `pattern_columns` list hard-coded in
`CandlestickPatternAnalyzer.get_pattern_summary`; note it omits
`is_bullish` and `is_bearish`. -/
def pattern_columns : List String :=
  ["is_doji", "is_hammer", "is_shooting_star",
   "is_bullish_engulfing", "is_bearish_engulfing",
   "is_morning_star", "is_evening_star"]

/-- The column set of a classified frame (`Date/Open/High/Low/Close` plus the
nine boolean pattern columns added by the analyzer). -/
def classified_columns : List String :=
  ["Date", "Open", "High", "Low", "Close",
   "is_doji", "is_hammer", "is_shooting_star", "is_bullish", "is_bearish",
   "is_bullish_engulfing", "is_bearish_engulfing",
   "is_morning_star", "is_evening_star"]

/-- The boolean column of a classified frame with the given name, if that
name is one of the nine boolean pattern columns. -/
def boolColumn (name : String) : Option (LabeledRow → Bool) :=
  if name = "is_doji" then some (fun r => r.is_doji)
  else if name = "is_hammer" then some (fun r => r.is_hammer)
  else if name = "is_shooting_star" then some (fun r => r.is_shooting_star)
  else if name = "is_bullish" then some (fun r => r.is_bullish)
  else if name = "is_bearish" then some (fun r => r.is_bearish)
  else if name = "is_bullish_engulfing" then some (fun r => r.is_bullish_engulfing)
  else if name = "is_bearish_engulfing" then some (fun r => r.is_bearish_engulfing)
  else if name = "is_morning_star" then some (fun r => r.is_morning_star)
  else if name = "is_evening_star" then some (fun r => r.is_evening_star)
  else none

/-- Embeds `CandlestickPatternAnalyzer.get_pattern_summary` from
`src/candlestick_patterns.py`: for each name in `pattern_columns` present in
the frame (in a classified frame all seven are), the number of rows whose
cell is `True` (`data[col].sum()` over booleans). -/
def get_pattern_summary (data : List LabeledRow) : List (String × ℕ) :=
  pattern_columns.filterMap fun col =>
    (boolColumn col).map fun f => (col, data.countP f)

/-- Embeds `CandlestickPatternAnalyzer.get_pattern_dates` from
`src/candlestick_patterns.py`, on a classified frame. A name that is not a
column yields `some []` (the early return); a boolean pattern column yields
`some` of the `Date` cells of the rows where it is `True`, in frame order;
a non-boolean column (e.g. `Open`) would make pandas raise, modelled as
`none`. -/
def get_pattern_dates (data : List LabeledRow) (pattern_name : String) :
    Option (List ℤ) :=
  if pattern_name ∈ classified_columns then
    match boolColumn pattern_name with
    | some f => some ((data.filter f).map (fun r => r.row.Date))
    | none => none
  else some []

/-- The Doji example record of the spec (section 8, property 5):
`open=100.00, close=100.05, high=150.00, low=50.00`. -/
def dojiExampleRow : OHLCRow := ⟨0, 100, 150, 50, 100.05⟩

/-- The Bullish Engulfing example of the spec (section 8, property 7):
previous candle `open=110, high=112, low=100, close=101`. -/
def engulfPrev : OHLCRow := ⟨0, 110, 112, 100, 101⟩

/-- The Bullish Engulfing example of the spec (section 8, property 7):
current candle `open=100, high=115, low=99, close=112`. -/
def engulfCurr : OHLCRow := ⟨1, 100, 115, 99, 112⟩

/-- Candle A of the Morning Star example (`open=110, close=100`, bearish),
with a valid high and low filled in. -/
def msA : OHLCRow := ⟨0, 110, 112, 99, 100⟩

/-- Candle B of the Morning Star example (`open=98, close=99`),
with a valid high and low filled in. -/
def msB : OHLCRow := ⟨1, 98, 100, 97, 99⟩

/-- Candle C of the Morning Star example (`open=105, close=115`, bullish),
with a valid high and low filled in. -/
def msC : OHLCRow := ⟨2, 105, 116, 104, 115⟩

/-- The three-candle Morning Star example series of the spec. -/
def msSeries : List OHLCRow := [msA, msB, msC]

/-- A record violating the OHLC invariant (`low=105 > high=100`,
the invalid-series-rejection example of the spec). -/
def invalidRow : OHLCRow := ⟨0, 100, 100, 105, 100⟩

/-- A three-record series of degenerate flat candles
(`open = high = low = close`), valid under the OHLC invariant. -/
def flatSeries : List OHLCRow := [⟨0, 5, 5, 5, 5⟩, ⟨1, 6, 6, 6, 6⟩, ⟨2, 7, 7, 7, 7⟩]

/-! ### Helper lemmas about the embedded pipeline -/

theorem singleLabel_row (r : OHLCRow) : (singleLabel r).row = r := rfl

theorem resetMulti_row (r : LabeledRow) : (resetMulti r).row = r.row := rfl

theorem multiAt_row (l : List LabeledRow) (i : ℕ) (hi : i < l.length) :
    (multiAt l i).row = (l.getD i default).row := by
  have h : l[i]? = some l[i] := List.getElem?_eq_getElem hi
  simp [multiAt, h, List.getD_eq_getElem?_getD]

theorem analyze_patterns_inl (data : List OHLCRow)
    (hv : validate_ohlc_data data = false) :
    analyze_patterns data = Sum.inl data := by
  by_cases h : data.isEmpty <;> simp [analyze_patterns, h, hv]

theorem analyze_patterns_inr (data : List OHLCRow) (hne : data ≠ [])
    (hv : validate_ohlc_data data = true) :
    analyze_patterns data =
      Sum.inr (_analyze_multi_candle_patterns (data.map singleLabel)) := by
  simp [analyze_patterns, _analyze_single_candle_patterns, hne, hv,
    List.isEmpty_iff]

theorem multi_short (l : List LabeledRow) (h : l.length < 3) :
    _analyze_multi_candle_patterns l = l.map resetMulti := by
  unfold _analyze_multi_candle_patterns
  simp only [List.length_map]
  split_ifs with h1 h2 <;> first | rfl | omega

theorem multi_long (l : List LabeledRow) (h : 3 ≤ l.length) :
    _analyze_multi_candle_patterns l =
      (List.range l.length).map (multiAt (l.map resetMulti)) := by
  unfold _analyze_multi_candle_patterns
  simp only [List.length_map]
  split_ifs with h1 h2 <;> first | rfl | omega

/-- The labeled-but-multi-reset row at an index of the classified frame. -/
def baseLabel (r : OHLCRow) : LabeledRow := resetMulti (singleLabel r)

theorem baseLabel_getElem (data : List OHLCRow) (j : ℕ) (hj : j < data.length) :
    ((data.map singleLabel).map resetMulti)[j]? = some (baseLabel (data.getD j default)) := by
  have h : data[j]? = some data[j] := List.getElem?_eq_getElem hj
  simp [List.getElem?_map, h, baseLabel, List.getD_eq_getElem?_getD]

theorem classified_long (data : List OHLCRow) (hne : data ≠ [])
    (hv : validate_ohlc_data data = true) (h3 : 3 ≤ data.length) :
    classifiedRows data =
      (List.range data.length).map (multiAt ((data.map singleLabel).map resetMulti)) := by
  rw [classifiedRows, analyze_patterns_inr data hne hv,
    multi_long _ (by simpa using h3)]
  simp

theorem classified_short (data : List OHLCRow) (hne : data ≠ [])
    (hv : validate_ohlc_data data = true) (h3 : data.length < 3) :
    classifiedRows data = (data.map singleLabel).map resetMulti := by
  rw [classifiedRows, analyze_patterns_inr data hne hv,
    multi_short _ (by simpa using h3)]

theorem classified_long_getD (data : List OHLCRow) (hne : data ≠ [])
    (hv : validate_ohlc_data data = true) (h3 : 3 ≤ data.length)
    (i : ℕ) (hi : i < data.length) :
    (classifiedRows data).getD i default =
      multiAt ((data.map singleLabel).map resetMulti) i := by
  rw [classified_long data hne hv h3]
  have hr : (List.range data.length)[i]? = some i := by
    simp [List.getElem?_range, hi]
  simp [List.getD_eq_getElem?_getD, List.getElem?_map, hr]

theorem getElem?_eq_some_getD (data : List OHLCRow) (j : ℕ) (hj : j < data.length) :
    data[j]? = some (data.getD j default) := by
  rw [List.getElem?_eq_getElem hj, List.getD_eq_getElem?_getD,
    List.getElem?_eq_getElem hj]
  rfl

theorem baseLabel_row (r : OHLCRow) : (resetMulti (singleLabel r)).row = r := rfl

theorem multiAt_bullish_engulfing (data : List OHLCRow) (i : ℕ)
    (h1 : 1 ≤ i) (hi : i < data.length) :
    (multiAt ((data.map singleLabel).map resetMulti) i).is_bullish_engulfing =
      _is_bullish_engulfing (data.getD (i - 1) default) (data.getD i default) := by
  have hcur := getElem?_eq_some_getD data i hi
  have hprev := getElem?_eq_some_getD data (i - 1) (by omega)
  simp only [multiAt, List.getElem?_map, hcur, hprev, Option.map_some]
  simp [h1, baseLabel_row]

theorem multiAt_morning_star (data : List OHLCRow) (i : ℕ)
    (h2 : 2 ≤ i) (hi : i < data.length) :
    (multiAt ((data.map singleLabel).map resetMulti) i).is_morning_star =
      _is_morning_star (data.getD (i - 2) default) (data.getD (i - 1) default)
        (data.getD i default) := by
  have hcur := getElem?_eq_some_getD data i hi
  have hprev := getElem?_eq_some_getD data (i - 1) (by omega)
  have hprev2 := getElem?_eq_some_getD data (i - 2) (by omega)
  simp only [multiAt, List.getElem?_map, hcur, hprev, hprev2, Option.map_some]
  simp [h2, baseLabel_row]

theorem is_doji_iff (open_price close_price tolerance : ℚ)
    (ht : tolerance < 100) :
    is_doji open_price close_price tolerance = true ↔ close_price = open_price := by
  unfold is_doji calculate_body_size
  have hmm : max open_price close_price - min open_price close_price =
      |close_price - open_price| := by
    rw [max_sub_min_eq_abs, abs_sub_comm]
  rw [hmm]
  by_cases h : close_price = open_price
  · simp [h]
  · have habs : |close_price - open_price| ≠ 0 := by
      simpa [sub_eq_zero] using h
    rw [if_neg habs, div_self habs]
    simp only [one_mul, decide_eq_true_eq]
    constructor
    · intro hle
      exact absurd (lt_of_lt_of_le ht hle) (lt_irrefl _)
    · intro hc
      exact absurd hc h

theorem is_morning_star_iff (a b c : OHLCRow) :
    _is_morning_star a b c = true ↔
      (is_bearish a.Open a.Close = true ∧ b.Close = b.Open ∧
       is_bullish c.Open c.Close = true ∧
       b.Open < a.Close ∧ c.Open > b.Close) := by
  unfold _is_morning_star
  rw [← is_doji_iff b.Open b.Close (1/10) (by norm_num)]
  cases hbe : is_bearish a.Open a.Close <;>
    cases hd : is_doji b.Open b.Close <;>
      cases hbu : is_bullish c.Open c.Close <;>
        simp [hbe, hd, hbu, and_assoc]

theorem map_rows_base (data : List OHLCRow) :
    ((data.map singleLabel).map resetMulti).map (fun r => r.row) = data := by
  induction data with
  | nil => rfl
  | cons r t ih =>
    simp only [List.map_cons]
    rw [ih]
    rfl

theorem outputRows_analyze (data : List OHLCRow) :
    outputRows (analyze_patterns data) = data := by
  unfold analyze_patterns
  split_ifs with he hv
  · rfl
  · rfl
  · show (_analyze_multi_candle_patterns (_analyze_single_candle_patterns data)).map
        (fun r => r.row) = data
    rw [_analyze_single_candle_patterns]
    by_cases h3 : 3 ≤ data.length
    · rw [multi_long _ (by simpa using h3)]
      apply List.ext_getElem
      · simp
      · intro i hi1 hi2
        simp only [List.getElem_map, List.getElem_range]
        have hiL : i < ((data.map singleLabel).map resetMulti).length := by
          simpa using hi2
        rw [multiAt_row _ _ hiL]
        have hb := baseLabel_getElem data i hi2
        rw [List.getD_eq_getElem?_getD, hb, Option.getD_some,
          show (baseLabel (data.getD i default)).row = data.getD i default from rfl,
          List.getD_eq_getElem?_getD, List.getElem?_eq_getElem hi2, Option.getD_some]
    · rw [multi_short _ (by simp at h3 ⊢; omega)]
      exact map_rows_base data

theorem validate_false_of_violation (data : List OHLCRow) (r : OHLCRow)
    (hr : r ∈ data)
    (hviol : ¬(r.Low ≤ r.Open ∧ r.Open ≤ r.High ∧ r.Low ≤ r.Close ∧ r.Close ≤ r.High)) :
    validate_ohlc_data data = false := by
  rw [validate_ohlc_data, List.all_eq_false]
  exact ⟨r, hr, by simpa [rowValid] using hviol⟩

theorem analyze_inr_dest (data : List OHLCRow) (out : List LabeledRow)
    (hout : analyze_patterns data = Sum.inr out) :
    data ≠ [] ∧ validate_ohlc_data data = true ∧
      out = _analyze_multi_candle_patterns (_analyze_single_candle_patterns data) := by
  have he : data ≠ [] := by
    intro hnil
    rw [hnil] at hout
    simp [analyze_patterns] at hout
  have hv : validate_ohlc_data data = true := by
    by_contra hc
    rw [analyze_patterns_inl data (by simpa using hc)] at hout
    simp at hout
  refine ⟨he, hv, ?_⟩
  rw [analyze_patterns_inr data he hv] at hout
  exact (Sum.inr.inj hout).symm

theorem boolColumn_mem (name : String) (f : LabeledRow → Bool)
    (h : boolColumn name = some f) : name ∈ classified_columns := by
  unfold boolColumn at h
  split_ifs at h with h1 h2 h3 h4 h5 h6 h7 h8 h9 <;>
    first
      | (subst h1; decide)
      | (subst h2; decide)
      | (subst h3; decide)
      | (subst h4; decide)
      | (subst h5; decide)
      | (subst h6; decide)
      | (subst h7; decide)
      | (subst h8; decide)
      | (subst h9; decide)
      | exact absurd h (by simp)

/-! ### Claims -/

/-- C1: the spec says a record with `high > low` is a Doji iff
`100 * |close - open| / (high - low) ≤ 0.1`, and that the record
`open=100.00, close=100.05, high=150.00, low=50.00` is a Doji. The code
computes the divisor as `max(open, close) - min(open, close)` instead of
`high - low`, so the example record is NOT classified as Doji: `is_doji`
returns `False` on it (and the pipeline leaves its `is_doji` cell `False`),
while the spec formula accepts it. -/
theorem c1_doji_divisor_bug :
    is_doji 100 (100.05 : ℚ) (1/10) = false ∧
    isDoji_spec 100 (100.05 : ℚ) 150 50 (1/10) = true ∧
    ((classifiedRows [dojiExampleRow]).getD 0 default).is_doji = false := by
  refine ⟨by norm_num [is_doji, calculate_body_size, abs_eq_max_neg],
    by norm_num [isDoji_spec, abs_eq_max_neg], ?_⟩
  rw [classified_short [dojiExampleRow] (by simp)
    (by norm_num [validate_ohlc_data, rowValid, dojiExampleRow]) (by norm_num)]
  show is_doji (100 : ℚ) (100.05 : ℚ) (1/10) = false
  norm_num [is_doji, calculate_body_size, abs_eq_max_neg]

/-- C2: the claim says a two-record series whose second candle satisfies the
bullish-engulfing matcher gets the `BullishEngulfing` label at index 1. The
matcher does accept the spec's example pair, and the pipeline does classify
the two-record series (validation passes), but `_analyze_multi_candle_patterns`
returns before its engulfing loop whenever the series has fewer than 3 rows,
so the label cell at index 1 stays `False`. -/
theorem c2_two_row_engulfing_unlabeled :
    _is_bullish_engulfing engulfPrev engulfCurr = true ∧
    (analyze_patterns [engulfPrev, engulfCurr]).isRight = true ∧
    ((classifiedRows [engulfPrev, engulfCurr]).getD 1 default).is_bullish_engulfing
      = false :=
  ⟨by decide, by decide, by decide⟩

/-- C3: if any record of the series violates `low ≤ open ≤ high` or
`low ≤ close ≤ high`, classification is refused for the whole series:
`analyze_patterns` returns the unmodified input (the `Sum.inl` path, the
Python function returning the original DataFrame with no pattern columns
added). -/
theorem c3_invalid_series_fail_closed (data : List OHLCRow) (r : OHLCRow)
    (hr : r ∈ data)
    (hviol : ¬(r.Low ≤ r.Open ∧ r.Open ≤ r.High ∧ r.Low ≤ r.Close ∧ r.Close ≤ r.High)) :
    analyze_patterns data = Sum.inl data :=
  analyze_patterns_inl data (validate_false_of_violation data r hr hviol)

/-- Witness for C3 at the invalid-series example (`low=105 > high=100`). -/
theorem c3_invalid_series_fail_closed_witness :
    invalidRow ∈ [invalidRow] ∧
    ¬(invalidRow.Low ≤ invalidRow.Open ∧ invalidRow.Open ≤ invalidRow.High ∧
      invalidRow.Low ≤ invalidRow.Close ∧ invalidRow.Close ≤ invalidRow.High) ∧
    analyze_patterns [invalidRow] = Sum.inl [invalidRow] :=
  ⟨by simp, by decide,
    c3_invalid_series_fail_closed [invalidRow] invalidRow (by simp) (by decide)⟩

/-- C4: under the OHLC invariant, no record is both a Hammer and a Shooting
Star at the default thresholds (body ≤ 30, shadow ≥ 60): both shadows being
at least 60% of the range would exceed 100%. -/
theorem c4_hammer_shooting_star_exclusive (open_price close_price high low : ℚ)
    (h1 : low ≤ open_price) (h2 : open_price ≤ high)
    (h3 : low ≤ close_price) (h4 : close_price ≤ high) :
    ¬(is_hammer open_price close_price high low 30 60 = true ∧
      is_shooting_star open_price close_price high low 30 60 = true) := by
  rintro ⟨hham, hstar⟩
  by_cases htr : high - low = 0
  · norm_num [is_hammer, calculate_shadow_percentages, calculate_shadow_size,
      calculate_body_percentage, htr] at hham
  · have htr' : 0 < high - low := by
      have hlh : low ≤ high := h1.trans h2
      rcases lt_or_eq_of_le hlh with hlt | heq
      · linarith
      · exact absurd (by rw [heq]; ring) htr
    simp only [is_hammer, is_shooting_star, calculate_shadow_percentages,
      calculate_shadow_size, calculate_body_percentage, if_neg htr,
      Bool.and_eq_true, decide_eq_true_eq] at hham hstar
    have hlow := hham.2
    have hup := hstar.2
    rw [ge_iff_le, div_mul_eq_mul_div, le_div_iff₀ htr'] at hlow hup
    have hmm : min open_price close_price ≤ max open_price close_price :=
      min_le_max
    linarith

/-- Witness for C4 at the Hammer example record
(`open=100, close=101, high=102, low=90`). -/
theorem c4_hammer_shooting_star_exclusive_witness :
    ((90:ℚ) ≤ 100 ∧ (100:ℚ) ≤ 102 ∧ (90:ℚ) ≤ 101 ∧ (101:ℚ) ≤ 102) ∧
    ¬(is_hammer 100 101 102 90 30 60 = true ∧
      is_shooting_star 100 101 102 90 30 60 = true) :=
  ⟨by norm_num,
    c4_hammer_shooting_star_exclusive 100 101 102 90
      (by norm_num) (by norm_num) (by norm_num) (by norm_num)⟩

/-- C5 counterexample: the claim says the pattern summary maps EVERY label of
the vocabulary, including `Bullish` and `Bearish`, to its exact count. On the
classified Morning Star example series two records are bullish, yet the
summary produced by `get_pattern_summary` has no entry for that label under
either its column name `is_bullish` or the spec name `Bullish`. -/
theorem c5_summary_missing_bullish_cx :
    (classifiedRows msSeries).countP (fun r => r.is_bullish) = 2 ∧
    (get_pattern_summary (classifiedRows msSeries)).lookup "is_bullish" = none ∧
    (get_pattern_summary (classifiedRows msSeries)).lookup "Bullish" = none :=
  ⟨by decide, rfl, rfl⟩

/-- C5 (amended): for every classification, the pattern summary maps each of
the seven labels `Doji, Hammer, ShootingStar, BullishEngulfing,
BearishEngulfing, MorningStar, EveningStar` (under its column name) to the
exact number of records carrying it; the `Bullish` and `Bearish` labels are
absent from the summary. -/
theorem c5_pattern_summary_counts (l : List LabeledRow) :
    (get_pattern_summary l).lookup "is_doji" = some (l.countP fun r => r.is_doji) ∧
    (get_pattern_summary l).lookup "is_hammer" = some (l.countP fun r => r.is_hammer) ∧
    (get_pattern_summary l).lookup "is_shooting_star" =
      some (l.countP fun r => r.is_shooting_star) ∧
    (get_pattern_summary l).lookup "is_bullish_engulfing" =
      some (l.countP fun r => r.is_bullish_engulfing) ∧
    (get_pattern_summary l).lookup "is_bearish_engulfing" =
      some (l.countP fun r => r.is_bearish_engulfing) ∧
    (get_pattern_summary l).lookup "is_morning_star" =
      some (l.countP fun r => r.is_morning_star) ∧
    (get_pattern_summary l).lookup "is_evening_star" =
      some (l.countP fun r => r.is_evening_star) ∧
    (get_pattern_summary l).lookup "is_bullish" = none ∧
    (get_pattern_summary l).lookup "is_bearish" = none :=
  ⟨rfl, rfl, rfl, rfl, rfl, rfl, rfl, rfl, rfl⟩

/-- C6 counterexample: the spec's Morning Star example
(A `open=110,close=100`; B `open=98,close=99`; C `open=105,close=115`) is NOT
labeled `MorningStar` by the code: the middle candle is rejected by the
implemented Doji test (`is_doji(98, 99)` compares the body against itself,
giving 100% > 0.1), so the cell at index 2 stays `False` even though the
series is classified. -/
theorem c6_morning_star_example_cx :
    (analyze_patterns msSeries).isRight = true ∧
    ((classifiedRows msSeries).getD 2 default).is_morning_star = false := by
  refine ⟨by decide, ?_⟩
  rw [classified_long_getD msSeries (by simp [msSeries]) (by decide) (by decide)
    2 (by decide), multiAt_morning_star msSeries 2 (by decide) (by decide)]
  show _is_morning_star msA msB msC = false
  norm_num [_is_morning_star, is_doji, is_bearish, is_bullish,
    calculate_body_size, max_def, min_def, msA, msB, msC]

/-- C6 (amended): in any classified series, the record at index `i ≥ 2`
carries the `MorningStar` label exactly when record `i-2` is bearish, record
`i-1` is a Doji AS IMPLEMENTED (its close equals its open), record `i` is
bullish, the middle candle opens below the first candle's close, and the
third candle opens above the middle candle's close. -/
theorem c6_morning_star_label_iff (data : List OHLCRow) (out : List LabeledRow)
    (hout : analyze_patterns data = Sum.inr out)
    (i : ℕ) (h2 : 2 ≤ i) (hi : i < data.length) :
    ((out.getD i default).is_morning_star = true ↔
      (is_bearish (data.getD (i-2) default).Open (data.getD (i-2) default).Close = true ∧
       (data.getD (i-1) default).Close = (data.getD (i-1) default).Open ∧
       is_bullish (data.getD i default).Open (data.getD i default).Close = true ∧
       (data.getD (i-1) default).Open < (data.getD (i-2) default).Close ∧
       (data.getD i default).Open > (data.getD (i-1) default).Close)) := by
  obtain ⟨he, hv, hout'⟩ := analyze_inr_dest data out hout
  have h3 : 3 ≤ data.length := by omega
  rw [hout', _analyze_single_candle_patterns, multi_long _ (by simpa using h3)]
  have hr : (List.range (data.map singleLabel).length)[i]? = some i := by
    simp [List.getElem?_range, hi]
  rw [List.getD_eq_getElem?_getD, List.getElem?_map, hr]
  rw [Option.map_some', Option.getD_some,
    multiAt_morning_star data i h2 hi, is_morning_star_iff]

/-- Witness for C6 (amended) on a classified series of flat candles. -/
theorem c6_morning_star_label_iff_witness :
    ((classifiedRows flatSeries).getD 2 default).is_morning_star = false := by
  have hout : analyze_patterns flatSeries = Sum.inr (classifiedRows flatSeries) := by
    rw [classifiedRows, analyze_patterns_inr flatSeries (by simp [flatSeries]) (by decide)]
  have h := c6_morning_star_label_iff flatSeries (classifiedRows flatSeries)
    hout 2 (by decide) (by decide)
  by_cases hms : ((classifiedRows flatSeries).getD 2 default).is_morning_star = true
  · exact absurd (h.mp hms).1 (by decide)
  · simpa using hms

/-- C7: classification is deterministic — the embedded `analyze_patterns` is
a pure function of the series (the analyzer object holds no state that the
result reads), so two runs on the same input agree. -/
theorem c7_analyze_deterministic (data : List OHLCRow) :
    analyze_patterns data = analyze_patterns data := rfl

/-- C8: classification never mutates the input series: on the refusal path
the caller gets the input back, and on the success path the output is a
parallel structure whose `Date/Open/High/Low/Close` cells are exactly the
input records, so the input is recoverable unchanged from the result. -/
theorem c8_analyze_preserves_input (data : List OHLCRow) :
    outputRows (analyze_patterns data) = data := by
  unfold analyze_patterns
  split_ifs with he hv
  · rfl
  · rfl
  · show (_analyze_multi_candle_patterns (_analyze_single_candle_patterns data)).map
        (fun r => r.row) = data
    rw [_analyze_single_candle_patterns]
    by_cases h3 : 3 ≤ data.length
    · rw [multi_long _ (by simpa using h3)]
      apply List.ext_getElem
      · simp
      · intro i hi1 hi2
        simp only [List.getElem_map, List.getElem_range]
        have hiL : i < ((data.map singleLabel).map resetMulti).length := by
          simpa using hi2
        rw [multiAt_row _ _ hiL]
        have hb := baseLabel_getElem data i hi2
        rw [List.getD_eq_getElem?_getD, hb, Option.getD_some,
          show (baseLabel (data.getD i default)).row = data.getD i default from rfl,
          List.getD_eq_getElem?_getD, List.getElem?_eq_getElem hi2, Option.getD_some]
    · rw [multi_short _ (by simp at h3 ⊢; omega)]
      exact map_rows_base data

/-- C9: as implemented, a record's Doji cell is `True` iff its close equals
its open, and the decision is independent of the record's high and low (any
two records agreeing on open and close get the same Doji result; the
implemented `is_doji` never reads high or low). -/
theorem c9_doji_close_eq_open (r : OHLCRow) :
    ((singleLabel r).is_doji = true ↔ r.Close = r.Open) ∧
    (∀ r2 : OHLCRow, r.Open = r2.Open → r.Close = r2.Close →
      (singleLabel r).is_doji = (singleLabel r2).is_doji) := by
  constructor
  · show is_doji r.Open r.Close (1/10) = true ↔ r.Close = r.Open
    exact is_doji_iff r.Open r.Close (1/10) (by norm_num)
  · intro r2 ho hc
    show is_doji r.Open r.Close (1/10) = is_doji r2.Open r2.Close (1/10)
    rw [ho, hc]

/-- Witness for C9: two records with equal open and close but different
high/low get the same Doji result. -/
theorem c9_doji_close_eq_open_witness :
    (singleLabel ⟨0, 100, 150, 50, 100⟩).is_doji =
      (singleLabel ⟨1, 100, 101, 99, 100⟩).is_doji :=
  (c9_doji_close_eq_open ⟨0, 100, 150, 50, 100⟩).2 ⟨1, 100, 101, 99, 100⟩ rfl rfl

/-- C10: querying the dates for a name that is not a column of the classified
frame returns the empty list rather than an error, and for a pattern-label
column the returned timestamps are a sublist of the series' timestamps in
series order. -/
theorem c10_pattern_dates (data : List LabeledRow) (name : String) :
    (name ∉ classified_columns → get_pattern_dates data name = some []) ∧
    (∀ f, boolColumn name = some f →
      get_pattern_dates data name =
        some ((data.filter f).map (fun r => r.row.Date)) ∧
      ((data.filter f).map (fun r => r.row.Date)).Sublist
        (data.map (fun r => r.row.Date))) := by
  constructor
  · intro hmem
    rw [get_pattern_dates, if_neg hmem]
  · intro f hf
    refine ⟨?_, List.Sublist.map (fun r => r.row.Date) (List.filter_sublist data)⟩
    rw [get_pattern_dates, if_pos (boolColumn_mem name f hf), hf]

/-- Witness for C10: a nonexistent pattern name yields the empty list, and a
real pattern column on the empty frame yields the empty date list. -/
theorem c10_pattern_dates_witness :
    get_pattern_dates [] "nonexistent_pattern" = some [] ∧
    get_pattern_dates ([] : List LabeledRow) "is_doji" = some [] :=
  ⟨(c10_pattern_dates [] "nonexistent_pattern").1 (by decide),
    ((c10_pattern_dates [] "is_doji").2 (fun r => r.is_doji) rfl).1⟩

end Candle
